import Mathlib

/-!
Verification of the messaging/session core of the `@ohmywallet/connect` SDK.

The definitions below are a shallow embedding of the TypeScript source:
`channel.ts` (message codec, origin gate, request correlation manager,
channel base class), `host.ts` (`IframeHost`, the session host) and
`host-wallet-manager.ts` (`HostWalletManager`, the address cache
reconciler).  JavaScript runtime values that the code inspects
structurally are modelled by an explicit value universe `JSVal`;
TypeScript string-literal union types are erased at runtime, so error
codes and message type tags are modelled as plain strings.  Ambient
inputs (current time, generated message ids) are passed as explicit
parameters, and callback invocations (promise continuations, event
handlers, cache writes) are returned as explicit effect lists.
-/

/-- A JavaScript runtime value, restricted to the shapes the embedded
code inspects: strings, numbers, booleans, `null`, `undefined` and
plain objects (own-property association lists). -/
inductive JSVal where
  | str (s : String)
  | num (n : Int)
  | boolean (b : Bool)
  | null
  | undefined
  | obj (fields : List (String × JSVal))

/-- Property access `v[k]`: `some` the stored value when `v` is an object
that has the own property `k` (even if its value is `undefined`),
`none` otherwise. -/
def jsGet : JSVal → String → Option JSVal
  | .obj fields, k => (fields.find? (fun p => p.1 == k)).map (·.2)
  | _, _ => none

/-- JavaScript truthiness of a value. -/
def jsTruthy : JSVal → Bool
  | .str s => !(s == "")
  | .num n => !(n == 0)
  | .boolean b => b
  | .null => false
  | .undefined => false
  | .obj _ => true

/-- JavaScript `typeof v === "object"` (true for plain objects and for
`null`). -/
def jsTypeofObject : JSVal → Bool
  | .obj _ => true
  | .null => true
  | _ => false

/-- `some s` when the value is the string `s`, else `none`. -/
def jsAsString : JSVal → Option String
  | .str s => some s
  | _ => none

/-- The build environment seen by `isValidOrigin`: the accessible value
of `process.env?.NODE_ENV` (`none` when `process` is undefined or the
variable is unset). -/
structure BuildEnv where
  nodeEnv : Option String

/-- The production check performed by `isValidOrigin`:
`typeof process !== "undefined" && process.env?.NODE_ENV === "production"`. -/
def markedProduction (env : BuildEnv) : Bool :=
  env.nodeEnv == some "production"

/-- `isValidOrigin` from `channel.ts`: wildcard is allowed only outside
production builds; otherwise exact match, or the `localhost` policy
accepting loopback origins. -/
def isValidOrigin (env : BuildEnv) (origin allowedOrigin : String) : Bool :=
  if allowedOrigin == "*" then
    if markedProduction env then false
    else true
  else if origin == allowedOrigin then true
  else if allowedOrigin == "localhost" then
    origin == "http://localhost:3000" ||
    origin == "http://127.0.0.1:3000" ||
    origin.startsWith "http://localhost:" ||
    origin.startsWith "http://127.0.0.1:"
  else false

/-- `isValidMessage` from `channel.ts`: a truthy object with string
`type`, string `id`, numeric `timestamp` and a present `payload`
property. -/
def isValidMessage (data : JSVal) : Bool :=
  if !(jsTruthy data) || !(jsTypeofObject data) then false
  else
    (match jsGet data "type" with | some (.str _) => true | _ => false) &&
    (match jsGet data "id" with | some (.str _) => true | _ => false) &&
    (match jsGet data "timestamp" with | some (.num _) => true | _ => false) &&
    (jsGet data "payload").isSome

/-- C1: with `allowedOrigin = "*"`, `isValidOrigin` returns `false` for
every origin exactly when the build is marked production
(`NODE_ENV === "production"`), and `true` for every origin otherwise. -/
theorem isValidOrigin_wildcard_iff_not_production (env : BuildEnv) (origin : String) :
    isValidOrigin env origin "*" = !(markedProduction env) := by
  cases hp : markedProduction env <;> simp [isValidOrigin, hp]

/-- Entry of the `pending` map of the request manager.  The `resolve` /
`reject` promise continuations are modelled as `Completion` events and
the `timeout` timer handle as the explicit `fireTimeout` transition. -/
structure PendingRequest where
  createdAt : Nat
deriving DecidableEq, Repr

/-- Lookup in a JS `Map` with string keys (`Map.prototype.get`). -/
def mapGet {β : Type} (m : List (String × β)) (k : String) : Option β :=
  (m.find? (fun p => p.1 == k)).map (·.2)

/-- Deletion from a JS `Map` with string keys (`Map.prototype.delete`). -/
def mapDelete {β : Type} (m : List (String × β)) (k : String) : List (String × β) :=
  m.filter (fun p => !(p.1 == k))

/-- Insertion into a JS `Map` with string keys (`Map.prototype.set`):
replaces in place when the key is present, appends otherwise. -/
def mapSet {β : Type} (m : List (String × β)) (k : String) (v : β) : List (String × β) :=
  if (m.find? (fun p => p.1 == k)).isSome then
    m.map (fun p => if p.1 == k then (k, v) else p)
  else m ++ [(k, v)]

/-- `IframeError` from `types.ts`.  `IframeErrorCode` is a closed union
of string literals, which is erased at runtime, so the code is a plain
string here. -/
structure IframeError where
  code : String
  message : String
deriving DecidableEq, Repr

/-- A settled promise continuation: the value handed to a pending
request's `resolve` or the error handed to its `reject`. -/
inductive Completion where
  | resolvedWith (id : String) (value : JSVal)
  | rejectedWith (id : String) (error : IframeError)

/-- `RequestManager` from `channel.ts`. -/
structure RequestManager where
  pending : List (String × PendingRequest)
  defaultTimeout : Nat
deriving DecidableEq, Repr

/-- Result of `RequestManager.resolve` / `RequestManager.reject`: the
returned boolean, the updated manager, and the continuation calls made. -/
structure RMOutcome where
  returned : Bool
  manager : RequestManager
  events : List Completion

/-- `RequestManager.register`: stores a fresh pending entry for
`messageId` (the promise and its timer are modelled by `Completion`
events and `fireTimeout`). -/
def RequestManager.register (rm : RequestManager) (messageId : String) (now : Nat) :
    RequestManager :=
  { rm with pending := mapSet rm.pending messageId { createdAt := now } }

/-- `RequestManager.resolve`: fulfills and removes the matching pending
entry, or returns `false` leaving the table untouched. -/
def RequestManager.resolve (rm : RequestManager) (messageId : String) (data : JSVal) :
    RMOutcome :=
  match mapGet rm.pending messageId with
  | none => ⟨false, rm, []⟩
  | some _ =>
    ⟨true, { rm with pending := mapDelete rm.pending messageId },
     [.resolvedWith messageId data]⟩

/-- `RequestManager.reject`: fails and removes the matching pending
entry, or returns `false` leaving the table untouched. -/
def RequestManager.reject (rm : RequestManager) (messageId : String) (error : IframeError) :
    RMOutcome :=
  match mapGet rm.pending messageId with
  | none => ⟨false, rm, []⟩
  | some _ =>
    ⟨true, { rm with pending := mapDelete rm.pending messageId },
     [.rejectedWith messageId error]⟩

/-- The `setTimeout` callback installed by `register` for `messageId`:
deletes the entry and rejects the awaiting caller with a `TIMEOUT`
error. -/
def RequestManager.fireTimeout (rm : RequestManager) (messageId : String) :
    RequestManager × List Completion :=
  ({ rm with pending := mapDelete rm.pending messageId },
   [.rejectedWith messageId ⟨"TIMEOUT", "Request timeout: " ++ messageId⟩])

/-- `RequestManager.cancelAll`: rejects every pending entry with a
`DESTROYED` error carrying `reason`, then clears the table. -/
def RequestManager.cancelAll (rm : RequestManager) (reason : String) :
    RequestManager × List Completion :=
  ({ rm with pending := [] },
   rm.pending.map (fun p => .rejectedWith p.1 ⟨"DESTROYED", reason⟩))

/-- `RequestManager.pendingCount`. -/
def RequestManager.pendingCount (rm : RequestManager) : Nat :=
  rm.pending.length

/-- `RequestManager.destroy`: `cancelAll("Channel destroyed")`. -/
def RequestManager.destroy (rm : RequestManager) : RequestManager × List Completion :=
  rm.cancelAll "Channel destroyed"

/-- Deleting a key removes every entry with that key. -/
theorem mapGet_mapDelete {β : Type} (m : List (String × β)) (k : String) :
    mapGet (mapDelete m k) k = none := by
  induction m with
  | nil => rfl
  | cons p t ih =>
    by_cases hp : p.1 = k
    · simpa [mapDelete, mapGet, hp] using ih
    · simpa [mapDelete, mapGet, List.find?, hp] using ih

/-- C2: when no pending entry for `X` exists — in particular right after
a `resolve`/`reject` for `X` has run, since both remove `X` — a
`resolve(X, _)` or `reject(X, _)` returns `false` and leaves the
pending-request table (and the continuations) untouched. -/
theorem requestManager_at_most_once_completion (rm : RequestManager) (X : String)
    (h : mapGet rm.pending X = none) (v : JSVal) (e : IframeError) :
    rm.resolve X v = ⟨false, rm, []⟩ ∧
    rm.reject X e = ⟨false, rm, []⟩ ∧
    (∀ (rm2 : RequestManager) (v2 : JSVal),
      mapGet ((rm2.resolve X v2).manager).pending X = none) ∧
    (∀ (rm2 : RequestManager) (e2 : IframeError),
      mapGet ((rm2.reject X e2).manager).pending X = none) := by
  refine ⟨?_, ?_, ?_, ?_⟩
  · simp [RequestManager.resolve, h]
  · simp [RequestManager.reject, h]
  · intro rm2 v2
    cases h2 : mapGet rm2.pending X with
    | none => simpa [RequestManager.resolve, h2] using h2
    | some r => simp [RequestManager.resolve, h2, mapGet_mapDelete]
  · intro rm2 e2
    cases h2 : mapGet rm2.pending X with
    | none => simpa [RequestManager.reject, h2] using h2
    | some r => simp [RequestManager.reject, h2, mapGet_mapDelete]

/-- Witness for C2 at a concrete manager that holds no entry for `"X"`. -/
theorem requestManager_at_most_once_completion_witness :
    RequestManager.resolve ⟨[("a", ⟨5⟩)], 30000⟩ "X" JSVal.null =
      ⟨false, ⟨[("a", ⟨5⟩)], 30000⟩, []⟩ :=
  (requestManager_at_most_once_completion ⟨[("a", ⟨5⟩)], 30000⟩ "X" rfl
    JSVal.null ⟨"TIMEOUT", "late"⟩).1

/-- C3: if the timeout for a registered id `X` fires first, the entry is
removed, the caller is failed with a `TIMEOUT` error, and a later
`resolve(X, _)` or `reject(X, _)` returns `false` with no effect. -/
theorem requestManager_timeout_first_decision_wins (rm : RequestManager) (X : String)
    (r : PendingRequest) (h : mapGet rm.pending X = some r) (v : JSVal) (e : IframeError) :
    mapGet (rm.fireTimeout X).1.pending X = none ∧
    (rm.fireTimeout X).2 =
      [Completion.rejectedWith X ⟨"TIMEOUT", "Request timeout: " ++ X⟩] ∧
    (rm.fireTimeout X).1.resolve X v = ⟨false, (rm.fireTimeout X).1, []⟩ ∧
    (rm.fireTimeout X).1.reject X e = ⟨false, (rm.fireTimeout X).1, []⟩ := by
  have hd : mapGet (rm.fireTimeout X).1.pending X = none := by
    simp [RequestManager.fireTimeout, mapGet_mapDelete]
  exact ⟨hd, rfl, by simp [RequestManager.resolve, hd], by simp [RequestManager.reject, hd]⟩

/-- Witness for C3 at a concrete manager with a registered entry. -/
theorem requestManager_timeout_first_decision_wins_witness :
    (RequestManager.fireTimeout ⟨[("req1", ⟨7⟩)], 30000⟩ "req1").2 =
      [Completion.rejectedWith "req1" ⟨"TIMEOUT", "Request timeout: req1"⟩] :=
  (requestManager_timeout_first_decision_wins ⟨[("req1", ⟨7⟩)], 30000⟩ "req1" ⟨7⟩ rfl
    JSVal.null ⟨"SIGN_FAILED", "late"⟩).2.1

/-- `IframeChannelBase` from `channel.ts`.  Handler callbacks are opaque
and represented by numeric identifiers; invoking one is a dispatch
effect.  `listening` stands for `messageListener !== null`. -/
structure IframeChannelBase where
  handlers : List (String × Nat)
  requestManager : RequestManager
  allowedOrigin : String
  allowedSource : Option Nat
  listening : Bool
  destroyed : Bool
deriving DecidableEq, Repr

/-- `IframeChannelBase.on`: single handler per type, last registration
wins. -/
def IframeChannelBase.on (c : IframeChannelBase) (type : String) (handlerId : Nat) :
    IframeChannelBase :=
  { c with handlers := mapSet c.handlers type handlerId }

/-- `IframeChannelBase.off`. -/
def IframeChannelBase.off (c : IframeChannelBase) (type : String) : IframeChannelBase :=
  { c with handlers := mapDelete c.handlers type }

/-- An inbound `message` event: reported origin, sender window identity
(`none` for a null source) and the raw data. -/
structure MessageEvent where
  origin : String
  source : Option Nat
  data : JSVal

/-- Observable actions of one run of the inbound dispatch. -/
inductive DispatchEffect where
  | completed (c : Completion)
  | handlerInvoked (type : String) (handlerId : Nat) (origin : String)

/-- `IframeChannelBase.handleMessage`: own-origin echo guard, pinned
source-window check, origin gate, structural message check; then the
`ERROR` branch routes a truthy `payload.requestId` to
`RequestManager.reject` (a non-string truthy `requestId` can never match
a string-keyed `Map` entry, so it is a no-op), and every other type goes
to its registered handler (exceptions swallowed by the caller). -/
def IframeChannelBase.handleMessage (c : IframeChannelBase) (env : BuildEnv)
    (windowOrigin : String) (event : MessageEvent) :
    IframeChannelBase × List DispatchEffect :=
  if event.origin == windowOrigin then (c, [])
  else if c.allowedSource.isSome && !(event.source == c.allowedSource) then (c, [])
  else if !(isValidOrigin env event.origin c.allowedOrigin) then (c, [])
  else if !(isValidMessage event.data) then (c, [])
  else
    let msgType := (jsAsString ((jsGet event.data "type").getD .undefined)).getD ""
    if msgType == "ERROR" then
      let payload := (jsGet event.data "payload").getD .undefined
      match jsGet payload "requestId" with
      | some rid =>
        if jsTruthy rid then
          match rid with
          | .str s =>
            let code := (jsAsString ((jsGet payload "code").getD .undefined)).getD ""
            let msg := (jsAsString ((jsGet payload "message").getD .undefined)).getD ""
            let out := c.requestManager.reject s ⟨code, msg⟩
            ({ c with requestManager := out.manager }, out.events.map .completed)
          | _ => (c, [])
        else (c, [])
      | none => (c, [])
    else
      match mapGet c.handlers msgType with
      | some hid => (c, [.handlerInvoked msgType hid event.origin])
      | none => (c, [])

/-- `IframeChannelBase.destroy`: idempotent; stops listening, cancels
all pending requests, clears the handler table. -/
def IframeChannelBase.destroy (c : IframeChannelBase) :
    IframeChannelBase × List Completion :=
  if c.destroyed then (c, [])
  else
    let out := c.requestManager.destroy
    ({ c with destroyed := true, listening := false,
              requestManager := out.1, handlers := [] },
     out.2)

/-- `IframeChannelBase.isDestroyed`. -/
def IframeChannelBase.isDestroyed (c : IframeChannelBase) : Bool :=
  c.destroyed

/-- C6: the first `destroy()` rejects every pending request with a
`DESTROYED` error, leaves the pending count at `0`, clears the handler
table and sets `isDestroyed`; a second `destroy()` does nothing further
and `isDestroyed` stays `true`. -/
theorem channel_destroy_cancels_all_and_idempotent (c : IframeChannelBase)
    (hnd : c.destroyed = false) :
    c.destroy.2 = c.requestManager.pending.map
      (fun p => Completion.rejectedWith p.1 ⟨"DESTROYED", "Channel destroyed"⟩) ∧
    c.destroy.2.length = c.requestManager.pendingCount ∧
    c.destroy.1.requestManager.pendingCount = 0 ∧
    c.destroy.1.handlers = [] ∧
    c.destroy.1.isDestroyed = true ∧
    c.destroy.1.destroy = (c.destroy.1, []) ∧
    c.destroy.1.destroy.1.isDestroyed = true := by
  refine ⟨?_, ?_, ?_, ?_, ?_, ?_, ?_⟩ <;>
    simp [IframeChannelBase.destroy, IframeChannelBase.isDestroyed,
      RequestManager.destroy, RequestManager.cancelAll, RequestManager.pendingCount, hnd]

/-- Witness for C6: a concrete channel with 3 pending requests. -/
theorem channel_destroy_cancels_all_and_idempotent_witness :
    (IframeChannelBase.destroy
        ⟨[("ERROR", 9)], ⟨[("r1", ⟨1⟩), ("r2", ⟨2⟩), ("r3", ⟨3⟩)], 30000⟩,
         "https://vault.example", none, true, false⟩).2 =
      [Completion.rejectedWith "r1" ⟨"DESTROYED", "Channel destroyed"⟩,
       Completion.rejectedWith "r2" ⟨"DESTROYED", "Channel destroyed"⟩,
       Completion.rejectedWith "r3" ⟨"DESTROYED", "Channel destroyed"⟩] ∧
    (IframeChannelBase.destroy
        ⟨[("ERROR", 9)], ⟨[("r1", ⟨1⟩), ("r2", ⟨2⟩), ("r3", ⟨3⟩)], 30000⟩,
         "https://vault.example", none, true, false⟩).1.requestManager.pendingCount = 0 := by
  have h := channel_destroy_cancels_all_and_idempotent
    ⟨[("ERROR", 9)], ⟨[("r1", ⟨1⟩), ("r2", ⟨2⟩), ("r3", ⟨3⟩)], 30000⟩,
     "https://vault.example", none, true, false⟩ rfl
  exact ⟨by simpa using h.1, h.2.2.1⟩

/-- C9: the inbound dispatch never delivers a message of type `ERROR` to
a registered `ERROR` handler, and an `ERROR` message whose payload
carries no `requestId` is dropped silently with no effect on the
channel. -/
theorem error_dispatch_no_handler_and_silent_drop (c : IframeChannelBase)
    (env : BuildEnv) (windowOrigin : String) (event : MessageEvent) :
    (∀ hid orig,
      DispatchEffect.handlerInvoked "ERROR" hid orig ∉
        (c.handleMessage env windowOrigin event).2) ∧
    (jsGet event.data "type" = some (.str "ERROR") →
     jsGet ((jsGet event.data "payload").getD .undefined) "requestId" = none →
     c.handleMessage env windowOrigin event = (c, [])) := by
  constructor
  · intro hid orig
    simp only [IframeChannelBase.handleMessage]
    split
    · simp
    · split
      · simp
      · split
        · simp
        · split
          · simp
          · split
            · split
              · split
                · split <;> simp
                · simp
              · simp
            · rename_i hty
              split
              · simp only [List.mem_singleton]
                intro hcontra
                injection hcontra with h1 h2 h3
                simp [← h1] at hty
              · simp
  · intro hty hreq
    simp only [IframeChannelBase.handleMessage]
    split
    · rfl
    · split
      · rfl
      · split
        · rfl
        · split
          · rfl
          · simp [hty, jsAsString, hreq]

/-- Witness for C9: a concrete gate-passing `ERROR` event without a
`requestId` is dropped with no effect. -/
theorem error_dispatch_no_handler_and_silent_drop_witness :
    IframeChannelBase.handleMessage
        ⟨[("ERROR", 9)], ⟨[("r1", ⟨1⟩)], 30000⟩, "https://vault.example", none, true, false⟩
        ⟨some "development"⟩ "https://dapp.example"
        ⟨"https://vault.example", none,
         .obj [("type", .str "ERROR"), ("id", .str "m1"), ("timestamp", .num 1),
               ("payload", .obj [("code", .str "SIGN_FAILED"), ("message", .str "boom")])]⟩ =
      (⟨[("ERROR", 9)], ⟨[("r1", ⟨1⟩)], 30000⟩, "https://vault.example", none, true, false⟩,
       []) :=
  (error_dispatch_no_handler_and_silent_drop
    ⟨[("ERROR", 9)], ⟨[("r1", ⟨1⟩)], 30000⟩, "https://vault.example", none, true, false⟩
    ⟨some "development"⟩ "https://dapp.example"
    ⟨"https://vault.example", none,
     .obj [("type", .str "ERROR"), ("id", .str "m1"), ("timestamp", .num 1),
           ("payload", .obj [("code", .str "SIGN_FAILED"), ("message", .str "boom")])]⟩).2
    rfl rfl

/-- `isHex` from the `viem` dependency (strict mode, the default used by
the host): a non-empty `0x`-prefixed string of hex digits. -/
def isHexDigit (ch : Char) : Bool :=
  (ch ≥ '0' && ch ≤ '9') || (ch ≥ 'a' && ch ≤ 'f') || (ch ≥ 'A' && ch ≤ 'F')

/-- `isHex` strict predicate: matches `/^0x[0-9a-fA-F]*$/` (such a
string is necessarily truthy and of string type). -/
def isHex (s : String) : Bool :=
  match s.data with
  | '0' :: 'x' :: rest => rest.all isHexDigit
  | _ => false

/-- The `IframeHostState` union from `host.ts`. -/
inductive IframeHostState where
  | idle
  | loading
  | ready
  | error
  | destroyed
deriving DecidableEq, Repr

/-- The string value of an `IframeHostState`, as interpolated into error
messages. -/
def stateName : IframeHostState → String
  | .idle => "idle"
  | .loading => "loading"
  | .ready => "ready"
  | .error => "error"
  | .destroyed => "destroyed"

/-- The wire envelope built by `createMessage` in `channel.ts`. -/
structure WireMessage where
  type : String
  id : String
  payload : JSVal
  timestamp : Nat

/-- `createMessage`: the generated id (counter + clock + random suffix)
and the current time are ambient inputs, passed explicitly. -/
def createMessage (type : String) (payload : JSVal) (id : String) (now : Nat) :
    WireMessage :=
  { type := type, id := id, payload := payload, timestamp := now }

/-- `IframeHost` from `host.ts`.  `mounted` stands for the overlay and
iframe elements existing (they are created together by `createIframe`
and removed together by `destroy`); `overlayVisible` is the overlay's
shown/hidden style state.  The config, the opaque event-handler
callbacks and the readiness resolver are not inspected by any claim. -/
structure IframeHost where
  base : IframeChannelBase
  iframeOrigin : String
  mounted : Bool
  overlayVisible : Bool
  state : IframeHostState
deriving DecidableEq, Repr

/-- Private `show()`: makes the overlay visible when it exists. -/
def IframeHost.showModal (h : IframeHost) : IframeHost :=
  if h.mounted then { h with overlayVisible := true } else h

/-- Private `hide()`: hides the overlay when it exists. -/
def IframeHost.hideModal (h : IframeHost) : IframeHost :=
  if h.mounted then { h with overlayVisible := false } else h

/-- The error thrown by `assertReady` / `ensureIframeReady` for a host
in state `s`. -/
def notReadyError (s : IframeHostState) : IframeError :=
  ⟨"NOT_INITIALIZED", "IframeHost is not ready (state: " ++ stateName s ++ ")"⟩

/-- `assertReady`: throws `NOT_INITIALIZED` unless the state is
`ready`. -/
def IframeHost.assertReadyCheck (h : IframeHost) : Except IframeError Unit :=
  if h.state == .ready then .ok () else .error (notReadyError h.state)

/-- The guard at the top of `ensureIframeReady`: throws
`NOT_INITIALIZED` unless the state is `loading`, `idle` or `ready`. -/
def IframeHost.ensureIframeReadyCheck (h : IframeHost) : Except IframeError Unit :=
  if !(h.state == .loading) && !(h.state == .idle) && !(h.state == .ready) then
    .error (notReadyError h.state)
  else .ok ()

/-- `connectWithSignerType` starts with `await this.ensureIframeReady()`;
this models that synchronous guard, which is all that runs in a
non-connectable state (mounting, the load/READY handshake and the
`CONNECT` send happen only after the guard passes). -/
def IframeHost.connectWithSignerTypeStart (h : IframeHost) : Except IframeError Unit :=
  h.ensureIframeReadyCheck

/-- `PasskeySignOptions` from `types.ts` (`transactionInfo` is an opaque
object). -/
structure PasskeySignOptions where
  keyId : String
  requireConfirmation : Option Bool
  transactionInfo : Option JSVal

/-- `DerivationSignOptions` from `types.ts`: optional `address`,
`group`, `keyIndex` (the XOR constraint is enforced at call time, not in
the type). -/
structure DerivationSignOptions where
  address : Option String
  group : Option String
  keyIndex : Option Int
  requireConfirmation : Option Bool
  transactionInfo : Option JSVal

/-- `DeriveAddressOptions` from `types.ts`. -/
structure DeriveAddressOptions where
  keyIndex : Int
  curve : Option String
  group : Option String
  bitcoinAddressType : Option String
  bitcoinNetwork : Option String

/-- Truthiness of an optional string (`undefined` and `""` are falsy). -/
def strOptTruthy : Option String → Bool
  | some s => !(s == "")
  | none => false

/-- An optional boolean passed into a payload field (`undefined` when
absent). -/
def optBoolVal : Option Bool → JSVal
  | some b => .boolean b
  | none => .undefined

/-- An optional string passed into a payload field. -/
def optStrVal : Option String → JSVal
  | some s => .str s
  | none => .undefined

/-- An optional integer passed into a payload field. -/
def optIntVal : Option Int → JSVal
  | some n => .num n
  | none => .undefined

/-- The `PasskeySignPayload` object built by `signWithPasskey`. -/
def passkeySignPayload (hash : String) (options : PasskeySignOptions) : JSVal :=
  .obj [("hash", .str hash), ("keyId", .str options.keyId),
        ("requireConfirmation", optBoolVal options.requireConfirmation),
        ("transactionInfo", options.transactionInfo.getD .undefined)]

/-- The synchronous part of `signWithPasskey`, up to and including the
`postMessage` send and the request registration: `assertReady`, hex
validation of `hash` and `keyId`, `show()`, `postToIframe` (which
throws `NOT_INITIALIZED` when the iframe is absent), then
`register`.  Errors return the intermediate host state (the overlay is
already shown when `postToIframe` throws). -/
def IframeHost.signWithPasskeyStart (h : IframeHost) (hash : String)
    (options : PasskeySignOptions) (msgId : String) (now : Nat) :
    IframeHost × Except IframeError WireMessage :=
  if !(h.state == .ready) then (h, .error (notReadyError h.state))
  else if !(isHex hash) then
    (h, .error ⟨"VALIDATION_FAILED", "hash must be in Hex format"⟩)
  else if !(isHex options.keyId) then
    (h, .error ⟨"VALIDATION_FAILED", "keyId must be in Hex format"⟩)
  else
    let h1 := h.showModal
    if !(h1.mounted) then (h1, .error ⟨"NOT_INITIALIZED", "iframe not initialized"⟩)
    else
      let message := createMessage "SIGN_WITH_PASSKEY" (passkeySignPayload hash options)
        msgId now
      let h2 := { h1 with base :=
        { h1.base with requestManager := h1.base.requestManager.register msgId now } }
      (h2, .ok message)

/-- The continuation of `signWithPasskey` once the registered request
settles: `hide()` runs on the success return and in the catch block
alike, then the outcome is returned or rethrown. -/
def IframeHost.signWithPasskeySettle (h : IframeHost)
    (outcome : Except IframeError JSVal) : IframeHost × Except IframeError JSVal :=
  (h.hideModal, outcome)

/-- The `DerivationSignPayload` object built by `signWithDerivation`. -/
def derivationSignPayload (hash : String) (options : DerivationSignOptions) : JSVal :=
  .obj [("hash", .str hash), ("address", optStrVal options.address),
        ("group", optStrVal options.group), ("keyIndex", optIntVal options.keyIndex),
        ("requireConfirmation", optBoolVal options.requireConfirmation),
        ("transactionInfo", options.transactionInfo.getD .undefined)]

/-- The synchronous part of `signWithDerivation` from `host.ts`:
`assertReady`; hex validation of `hash`; the XOR check between a truthy
`address` and a truthy `group` paired with a present `keyIndex`; EVM
format validation of a truthy `0x`-prefixed `address` (the `isAddress`
helper of the external `viem` dependency is a parameter); the
`keyIndex` range check; `show()` only when confirmation is requested;
`postToIframe`; `register`. -/
def IframeHost.signWithDerivationStart (isAddr : String → Bool) (h : IframeHost)
    (hash : String) (options : DerivationSignOptions) (msgId : String) (now : Nat) :
    IframeHost × Except IframeError WireMessage :=
  if !(h.state == .ready) then (h, .error (notReadyError h.state))
  else if !(isHex hash) then
    (h, .error ⟨"VALIDATION_FAILED", "hash must be in Hex format"⟩)
  else if (strOptTruthy options.address) ==
      (strOptTruthy options.group && options.keyIndex.isSome) then
    (h, .error ⟨"VALIDATION_FAILED", "Provide either address or (group + keyIndex), not both"⟩)
  else if (match options.address with
           | some a => !(a == "") && a.startsWith "0x" && !(isAddr a)
           | none => false) then
    (h, .error ⟨"VALIDATION_FAILED", "Invalid EVM address format"⟩)
  else if (match options.keyIndex with
           | some k => k < 0 || k > 2147483647
           | none => false) then
    (h, .error ⟨"VALIDATION_FAILED", "keyIndex must be between 0 and 2147483647"⟩)
  else
    let h1 := if options.requireConfirmation == some true then h.showModal else h
    if !(h1.mounted) then (h1, .error ⟨"NOT_INITIALIZED", "iframe not initialized"⟩)
    else
      let message := createMessage "SIGN_WITH_DERIVATION"
        (derivationSignPayload hash options) msgId now
      let h2 := { h1 with base :=
        { h1.base with requestManager := h1.base.requestManager.register msgId now } }
      (h2, .ok message)

/-- The continuation of `signWithDerivation` once the registered request
settles: `hide()` runs — on the success return and in the catch block
alike — exactly when confirmation had been requested. -/
def IframeHost.signWithDerivationSettle (h : IframeHost)
    (requireConfirmation : Option Bool) (outcome : Except IframeError JSVal) :
    IframeHost × Except IframeError JSVal :=
  (if requireConfirmation == some true then h.hideModal else h, outcome)

/-- The `DeriveAddressPayload` object built by `deriveAddress`, with the
`secp256k1` / `evm` defaults applied. -/
def deriveAddressPayload (options : DeriveAddressOptions) : JSVal :=
  .obj [("keyIndex", .num options.keyIndex),
        ("curve", .str (options.curve.getD "secp256k1")),
        ("group", .str (options.group.getD "evm")),
        ("bitcoinAddressType", optStrVal options.bitcoinAddressType),
        ("bitcoinNetwork", optStrVal options.bitcoinNetwork)]

/-- The synchronous part of `deriveAddress` from `host.ts`:
`assertReady`, payload with defaults, `postToIframe`, `register`.  No
UI is touched. -/
def IframeHost.deriveAddressStart (h : IframeHost) (options : DeriveAddressOptions)
    (msgId : String) (now : Nat) : IframeHost × Except IframeError WireMessage :=
  if !(h.state == .ready) then (h, .error (notReadyError h.state))
  else if !(h.mounted) then (h, .error ⟨"NOT_INITIALIZED", "iframe not initialized"⟩)
  else
    let message := createMessage "DERIVE_ADDRESS" (deriveAddressPayload options) msgId now
    let h2 := { h with base :=
      { h.base with requestManager := h.base.requestManager.register msgId now } }
    (h2, .ok message)

/-- `IframeHost.destroy` (override): no-op when the base channel is
already destroyed; otherwise best-effort sends a `DESTROY` notice when
`ready` with a live iframe, removes the overlay and iframe, sets the
state to `destroyed`, fires the `destroyed` event callback (opaque) and
delegates to the base `destroy`, whose cancellations are returned. -/
def IframeHost.destroy (h : IframeHost) (msgId : String) (now : Nat) :
    IframeHost × List Completion × List WireMessage :=
  if h.base.destroyed then (h, [], [])
  else
    let notices :=
      if h.state == .ready && h.mounted then
        [createMessage "DESTROY" (.obj [("reason", .str "Host destroyed")]) msgId now]
      else []
    let h1 := { h with mounted := false, overlayVisible := false,
                       state := IframeHostState.destroyed }
    let out := h1.base.destroy
    ({ h1 with base := out.1 }, out.2, notices)

/-- C4: in the `ready` state, with a valid hex hash,
`signWithDerivation` fails with `VALIDATION_FAILED` before sending any
message (the host is returned unchanged and no wire message is
produced) both when neither `address` nor (`group` + `keyIndex`) is
supplied and when both are; supplying `address` alone passes the
validation and reaches the send. -/
theorem derivation_sign_xor_validation (isAddr : String → Bool) (h : IframeHost)
    (hready : h.state = .ready) (hash : String) (hhex : isHex hash = true)
    (options : DerivationSignOptions) (msgId : String) (now : Nat) :
    (strOptTruthy options.address = false →
     (strOptTruthy options.group && options.keyIndex.isSome) = false →
     IframeHost.signWithDerivationStart isAddr h hash options msgId now =
       (h, .error ⟨"VALIDATION_FAILED",
         "Provide either address or (group + keyIndex), not both"⟩)) ∧
    (strOptTruthy options.address = true →
     (strOptTruthy options.group && options.keyIndex.isSome) = true →
     IframeHost.signWithDerivationStart isAddr h hash options msgId now =
       (h, .error ⟨"VALIDATION_FAILED",
         "Provide either address or (group + keyIndex), not both"⟩)) ∧
    (∀ a : String, options.address = some a → (a == "") = false →
     options.group = none → options.keyIndex = none →
     (a.startsWith "0x" = true → isAddr a = true) →
     h.mounted = true →
     (IframeHost.signWithDerivationStart isAddr h hash options msgId now).2 =
       .ok (createMessage "SIGN_WITH_DERIVATION" (derivationSignPayload hash options)
         msgId now)) := by
  refine ⟨?_, ?_, ?_⟩
  · intro ha hg
    simp [IframeHost.signWithDerivationStart, hready, hhex, ha, hg]
  · intro ha hg
    simp [IframeHost.signWithDerivationStart, hready, hhex, ha, hg]
  · intro a haddr hne hgroup hkey hformat hm
    have hta : strOptTruthy options.address = true := by
      simp [strOptTruthy, haddr, hne]
    have hfmt : (match options.address with
        | some a => !(a == "") && a.startsWith "0x" && !(isAddr a)
        | none => false) = false := by
      rw [haddr]
      by_cases hs : a.startsWith "0x" = true
      · simp [hs, hformat hs]
      · simp [hs]
    have hmount : (if options.requireConfirmation = some true then h.showModal
        else h).mounted = true := by
      by_cases hrc : options.requireConfirmation = some true
      · simp [hrc, IframeHost.showModal, hm]
      · simp [hrc, hm]
    simp [IframeHost.signWithDerivationStart, hready, hhex, hta, hgroup, hkey,
      hfmt, hmount]

/-- Witness for C4: a concrete ready host, exercising the
neither-supplied branch. -/
theorem derivation_sign_xor_validation_witness :
    IframeHost.signWithDerivationStart (fun _ => true)
        ⟨⟨[], ⟨[], 30000⟩, "https://vault.example", some 1, true, false⟩,
         "https://vault.example", true, false, .ready⟩
        "0x12" ⟨none, none, none, none, none⟩ "m1" 0 =
      (⟨⟨[], ⟨[], 30000⟩, "https://vault.example", some 1, true, false⟩,
        "https://vault.example", true, false, .ready⟩,
       .error ⟨"VALIDATION_FAILED",
         "Provide either address or (group + keyIndex), not both"⟩) :=
  (derivation_sign_xor_validation (fun _ => true)
    ⟨⟨[], ⟨[], 30000⟩, "https://vault.example", some 1, true, false⟩,
     "https://vault.example", true, false, .ready⟩
    rfl "0x12" rfl ⟨none, none, none, none, none⟩ "m1" 0).1 rfl rfl

/-- C7: a `signWithPasskey` call that passes validation shows the modal
surface before the request is sent, and the surface is hidden again
after the request settles — on the success path, on every rejection
(timeout, peer error), and on the destroy path where the overlay has
already been removed. -/
theorem passkey_sign_modal_shown_then_always_hidden (h : IframeHost)
    (hready : h.state = .ready) (hm : h.mounted = true) (hash : String)
    (options : PasskeySignOptions) (hhex : isHex hash = true)
    (hkid : isHex options.keyId = true) (msgId : String) (now : Nat) :
    (h.signWithPasskeyStart hash options msgId now).2 =
      .ok (createMessage "SIGN_WITH_PASSKEY" (passkeySignPayload hash options)
        msgId now) ∧
    (h.signWithPasskeyStart hash options msgId now).1.overlayVisible = true ∧
    (∀ outcome : Except IframeError JSVal,
      (((h.signWithPasskeyStart hash options msgId now).1.signWithPasskeySettle
        outcome).1).overlayVisible = false) ∧
    (∀ (mid2 : String) (now2 : Nat) (outcome : Except IframeError JSVal),
      ((((IframeHost.destroy (h.signWithPasskeyStart hash options msgId now).1
          mid2 now2).1).signWithPasskeySettle outcome).1).overlayVisible = false) := by
  have hstart : h.signWithPasskeyStart hash options msgId now =
      ({ h with overlayVisible := true, base :=
        { h.base with requestManager := h.base.requestManager.register msgId now } },
       .ok (createMessage "SIGN_WITH_PASSKEY" (passkeySignPayload hash options)
         msgId now)) := by
    simp [IframeHost.signWithPasskeyStart, hready, hhex, hkid,
      IframeHost.showModal, hm]
  refine ⟨by rw [hstart], by rw [hstart], ?_, ?_⟩
  · intro outcome
    rw [hstart]
    simp [IframeHost.signWithPasskeySettle, IframeHost.hideModal, hm]
  · intro mid2 now2 outcome
    rw [hstart]
    by_cases hdes : h.base.destroyed = true
    · simp [IframeHost.destroy, hdes, IframeHost.signWithPasskeySettle,
        IframeHost.hideModal, hm]
    · simp only [Bool.not_eq_true] at hdes
      simp [IframeHost.destroy, hdes, IframeChannelBase.destroy,
        IframeHost.signWithPasskeySettle, IframeHost.hideModal]

/-- Witness for C7: a concrete ready, mounted host with valid inputs;
after a timeout rejection settles, the overlay is hidden. -/
theorem passkey_sign_modal_shown_then_always_hidden_witness :
    ((((⟨⟨[], ⟨[], 30000⟩, "https://vault.example", some 1, true, false⟩,
        "https://vault.example", true, false, .ready⟩ :
          IframeHost).signWithPasskeyStart "0x12" ⟨"0x34", none, none⟩ "m1"
        0).1.signWithPasskeySettle
      (.error ⟨"TIMEOUT", "Request timeout: m1"⟩)).1).overlayVisible = false :=
  (passkey_sign_modal_shown_then_always_hidden
    ⟨⟨[], ⟨[], 30000⟩, "https://vault.example", some 1, true, false⟩,
     "https://vault.example", true, false, .ready⟩
    rfl rfl "0x12" ⟨"0x34", none, none⟩ rfl rfl "m1" 0).2.2.1
    (.error ⟨"TIMEOUT", "Request timeout: m1"⟩)

/-- Counterexample for C5 as stated: after `destroy()` on a concrete
ready host, `signWithPasskey` fails with code `NOT_INITIALIZED` — not
with a `DESTROYED`-kind error as the claim asserts. -/
theorem destroyed_host_op_error_kind_counterexample :
    (IframeHost.signWithPasskeyStart
        (IframeHost.destroy
          ⟨⟨[], ⟨[], 30000⟩, "https://vault.example", some 1, true, false⟩,
           "https://vault.example", true, false, .ready⟩ "d1" 0).1
        "0x12" ⟨"0x34", none, none⟩ "m1" 1).2 =
      .error ⟨"NOT_INITIALIZED", "IframeHost is not ready (state: destroyed)"⟩ ∧
    ("NOT_INITIALIZED" = "DESTROYED" → False) := by
  constructor
  · rfl
  · intro hcontra
    simp at hcontra

/-- C5 (amended): after the first `destroy()` the host state is
`destroyed` and stays so, and every subsequent public operation
(`connectWithSignerType`, `signWithPasskey`, `signWithDerivation`,
`deriveAddress`) fails with a `NOT_INITIALIZED`-kind error naming the
destroyed state, leaving the host unchanged. -/
theorem destroy_terminal_ops_fail_not_initialized (h : IframeHost)
    (hnd : h.base.destroyed = false) (msgId : String) (now : Nat)
    (h2 : IframeHost) (hd2 : h2.state = .destroyed) (hash : String)
    (po : PasskeySignOptions) (dopts : DerivationSignOptions)
    (da : DeriveAddressOptions) (isAddr : String → Bool) (mid2 : String) (now2 : Nat) :
    (IframeHost.destroy h msgId now).1.state = .destroyed ∧
    h2.connectWithSignerTypeStart = .error (notReadyError .destroyed) ∧
    h2.signWithPasskeyStart hash po mid2 now2 =
      (h2, .error (notReadyError .destroyed)) ∧
    IframeHost.signWithDerivationStart isAddr h2 hash dopts mid2 now2 =
      (h2, .error (notReadyError .destroyed)) ∧
    h2.deriveAddressStart da mid2 now2 = (h2, .error (notReadyError .destroyed)) := by
  refine ⟨?_, ?_, ?_, ?_, ?_⟩
  · simp [IframeHost.destroy, hnd]
  · simp [IframeHost.connectWithSignerTypeStart, IframeHost.ensureIframeReadyCheck, hd2]
  · simp [IframeHost.signWithPasskeyStart, hd2]
  · simp [IframeHost.signWithDerivationStart, hd2]
  · simp [IframeHost.deriveAddressStart, hd2]

/-- Witness for the amended C5 at a concrete host: the first `destroy`
lands in `destroyed`, and `deriveAddress` on the destroyed host fails
with `NOT_INITIALIZED`. -/
theorem destroy_terminal_ops_fail_not_initialized_witness :
    (IframeHost.destroy
        ⟨⟨[], ⟨[], 30000⟩, "https://vault.example", some 1, true, false⟩,
         "https://vault.example", true, false, .ready⟩ "d1" 0).1.state =
      IframeHostState.destroyed ∧
    IframeHost.deriveAddressStart
        ⟨⟨[], ⟨[], 30000⟩, "https://vault.example", some 1, false, true⟩,
         "https://vault.example", false, false, .destroyed⟩
        ⟨0, none, none, none, none⟩ "m2" 2 =
      (⟨⟨[], ⟨[], 30000⟩, "https://vault.example", some 1, false, true⟩,
        "https://vault.example", false, false, .destroyed⟩,
       .error (notReadyError .destroyed)) := by
  have hfull := destroy_terminal_ops_fail_not_initialized
    ⟨⟨[], ⟨[], 30000⟩, "https://vault.example", some 1, true, false⟩,
     "https://vault.example", true, false, .ready⟩
    rfl "d1" 0
    ⟨⟨[], ⟨[], 30000⟩, "https://vault.example", some 1, false, true⟩,
     "https://vault.example", false, false, .destroyed⟩
    rfl "0x12" ⟨"0x34", none, none⟩ ⟨none, none, none, none, none⟩
    ⟨0, none, none, none, none⟩ (fun _ => true) "m2" 2
  exact ⟨hfull.1, hfull.2.2.2.2⟩

/-- `HostWalletManagerState` from `host-wallet-manager.ts`. -/
inductive HostWalletManagerState where
  | idle
  | connecting
  | noWallet
  | ready
  | destroyed
deriving DecidableEq, Repr

/-- `HostWalletAddressInfo` from `host-wallet-manager.ts` (the chain
group and bitcoin options are string tags at runtime). -/
structure HostWalletAddressInfo where
  keyIndex : Int
  address : String
  group : String
  bitcoinAddressType : Option String
  bitcoinNetwork : Option String
deriving DecidableEq, Repr

/-- Observable side effects of a `HostWalletManager` operation: the
`localStorage` cache write, the `onAddressesChange` and `onStateChange`
config callbacks, and the delegated `host.destroy()` call. -/
inductive HWMEffect where
  | savedCache (addresses : List HostWalletAddressInfo)
  | notifiedAddressesChange (addresses : List HostWalletAddressInfo)
  | stateChanged (s : HostWalletManagerState)
  | destroyedHost
deriving DecidableEq, Repr

/-- `HostWalletManager` from `host-wallet-manager.ts`.  The wrapped
`IframeHost` is reached only through its public operations; `ownedHost`
records whether this manager constructed it. -/
structure HostWalletManager where
  state : HostWalletManagerState
  currentAddress : Option String
  currentKeyIndex : Int
  addresses : List HostWalletAddressInfo
  ownedHost : Bool
deriving DecidableEq, Repr

/-- Private `setState`: no-op on an identical state and on any attempt
to leave `destroyed`; otherwise stores the new state and fires the
`onStateChange` callback. -/
def HostWalletManager.setState (m : HostWalletManager)
    (newState : HostWalletManagerState) : HostWalletManager × List HWMEffect :=
  if m.state == newState then (m, [])
  else if m.state == .destroyed && !(newState == .destroyed) then (m, [])
  else ({ m with state := newState }, [.stateChanged newState])

/-- Iterated internal state changes: a sequence of `setState` calls. -/
def HostWalletManager.setStates (m : HostWalletManager)
    (l : List HostWalletManagerState) : HostWalletManager :=
  l.foldl (fun acc s => (acc.setState s).1) m

/-- Case-insensitive address comparison
(`a.toLowerCase() === b.toLowerCase()`). -/
def lowerEq (a b : String) : Bool :=
  a.data.map Char.toLower == b.data.map Char.toLower

/-- `removeAddress` from `host-wallet-manager.ts`: requires `ready`;
returns `false` without touching the list when fewer than 2 addresses
remain, when the target matches the active address case-insensitively,
or when it is not found; otherwise splices it out, persists the cache
and notifies the UI. -/
def HostWalletManager.removeAddress (m : HostWalletManager) (addressToRemove : String) :
    Except IframeError (Bool × HostWalletManager × List HWMEffect) :=
  if !(m.state == .ready) then
    .error ⟨"NOT_INITIALIZED", "매니저가 준비되지 않았습니다"⟩
  else if m.addresses.length ≤ 1 then .ok (false, m, [])
  else if (match m.currentAddress with
           | some cur => !(cur == "") && lowerEq cur addressToRemove
           | none => false) then .ok (false, m, [])
  else
    match m.addresses.findIdx? (fun a => lowerEq a.address addressToRemove) with
    | none => .ok (false, m, [])
    | some i =>
      let addrs := m.addresses.eraseIdx i
      .ok (true, { m with addresses := addrs },
        [.savedCache addrs, .notifiedAddressesChange addrs])

/-- `HostWalletManager.destroy`: no-op when already destroyed;
otherwise destroys an owned host, clears the current address and the
list, and transitions to `destroyed` via `setState`. -/
def HostWalletManager.destroy (m : HostWalletManager) :
    HostWalletManager × List HWMEffect :=
  if m.state == .destroyed then (m, [])
  else
    let hostEff : List HWMEffect := if m.ownedHost then [.destroyedHost] else []
    let m1 := { m with currentAddress := none, addresses := [] }
    let out := m1.setState .destroyed
    (out.1, hostEff ++ out.2)

/-- C8: in the `ready` state, `removeAddress` returns `false` and
leaves the manager unchanged whenever fewer than 2 addresses are held,
and whenever the target equals the active address under
case-insensitive comparison. -/
theorem removeAddress_guards (m : HostWalletManager)
    (hready : m.state = .ready) (a : String) :
    (m.addresses.length < 2 → m.removeAddress a = .ok (false, m, [])) ∧
    (∀ cur : String, m.currentAddress = some cur → (cur == "") = false →
      lowerEq cur a = true → m.removeAddress a = .ok (false, m, [])) := by
  constructor
  · intro hlen
    have hle : m.addresses.length ≤ 1 := Nat.lt_succ_iff.mp hlen
    simp [HostWalletManager.removeAddress, hready, hle]
  · intro cur hcur hne hlow
    by_cases hle : m.addresses.length ≤ 1
    · simp [HostWalletManager.removeAddress, hready, hle]
    · simp [HostWalletManager.removeAddress, hready, hle, hcur, hne, hlow]

/-- Witness for C8: a concrete ready manager with exactly 2 addresses
refuses to remove the active one (spelled in a different case), and a
concrete ready manager with 1 address refuses to remove it. -/
theorem removeAddress_guards_witness :
    HostWalletManager.removeAddress
        ⟨.ready, some "0xAb", 0,
         [⟨0, "0xAb", "evm", none, none⟩, ⟨1, "0xCd", "evm", none, none⟩], true⟩
        "0xaB" =
      .ok (false,
        ⟨.ready, some "0xAb", 0,
         [⟨0, "0xAb", "evm", none, none⟩, ⟨1, "0xCd", "evm", none, none⟩], true⟩, []) ∧
    HostWalletManager.removeAddress
        ⟨.ready, some "0xAb", 0, [⟨0, "0xAb", "evm", none, none⟩], true⟩ "0xAb" =
      .ok (false,
        ⟨.ready, some "0xAb", 0, [⟨0, "0xAb", "evm", none, none⟩], true⟩, []) := by
  constructor
  · exact (removeAddress_guards
      ⟨.ready, some "0xAb", 0,
       [⟨0, "0xAb", "evm", none, none⟩, ⟨1, "0xCd", "evm", none, none⟩], true⟩
      rfl "0xaB").2 "0xAb" rfl rfl (by decide)
  · exact (removeAddress_guards
      ⟨.ready, some "0xAb", 0, [⟨0, "0xAb", "evm", none, none⟩], true⟩
      rfl "0xAb").1 (by decide)

/-- Helper: `setState` on a destroyed manager is a no-op for every
requested state. -/
theorem setState_destroyed_noop (m : HostWalletManager)
    (hd : m.state = .destroyed) (s : HostWalletManagerState) :
    m.setState s = (m, []) := by
  by_cases hs : s = HostWalletManagerState.destroyed
  · simp [HostWalletManager.setState, hd, hs]
  · simp [HostWalletManager.setState, hd, hs]

/-- C10: `destroyed` is terminal at the `setState` level: on a destroyed
manager every `setState` call is ignored (no state change, no callback),
so no sequence of internal state changes leaves `destroyed`. -/
theorem hwm_destroyed_state_terminal (m : HostWalletManager)
    (hd : m.state = .destroyed) :
    (∀ s : HostWalletManagerState, m.setState s = (m, [])) ∧
    (∀ l : List HostWalletManagerState, m.setStates l = m) := by
  refine ⟨setState_destroyed_noop m hd, ?_⟩
  intro l
  induction l with
  | nil => rfl
  | cons s t ih =>
    show HostWalletManager.setStates ((m.setState s).1) t = m
    rw [setState_destroyed_noop m hd s]
    exact ih

/-- Witness for C10 at a concrete destroyed manager and a concrete
sequence of attempted transitions. -/
theorem hwm_destroyed_state_terminal_witness :
    HostWalletManager.setStates ⟨.destroyed, none, 0, [], true⟩
        [.ready, .idle, .connecting, .noWallet] =
      ⟨.destroyed, none, 0, [], true⟩ :=
  (hwm_destroyed_state_terminal ⟨.destroyed, none, 0, [], true⟩ rfl).2
    [.ready, .idle, .connecting, .noWallet]
